import Mathlib

/-!
Shallow embedding of the Birthday Contributions App (`app.py`) and proofs
about its observable behavior.

Modelling conventions:
* Python dict records become Lean structures; the in-memory `contributions`
  list is threaded explicitly as a `List Contribution`.
* Flask form / query fields are `Option String` (a missing key is `none`).
* Python exceptions are `Except Unit` / `Option`: a handler body that can
  raise returns `Except`, and a raised exception that nothing catches is an
  `.error`.
* External services (the Gemini text-generation call, the Unsplash image
  search) are oracles passed in as parameters: the generation outcome is an
  `Except Unit (List RawSuggestion)` (the parsed JSON array, or any failure
  up to and including `json.loads`), and image lookup results are supplied
  by a `fetch` function keyed on the request URL.
* Python `int` is `Int`; prices (Python floats after `float(...)`) are
  modelled exactly as `ℚ`.
-/

namespace App

/-- A record appended to the global `contributions` list by
`process_payment`, holding the submitted name and amount and a
formatted timestamp. -/
structure Contribution where
  name : String
  amount : Int
  timestamp : String
deriving DecidableEq

/-- The Flask session keys written by `process_payment`
(the keys last_amount and last_name). -/
structure Session where
  last_amount : Option Int
  last_name : Option String
deriving DecidableEq

/-- The redirect issued by a handler. -/
inductive Redirect where
  | success
deriving DecidableEq

/-- Numeric value of a list of ASCII digit characters. -/
def digitsToNat (ds : List Char) : Nat :=
  ds.foldl (fun a c => a * 10 + (c.toNat - 48)) 0

/-- Python `int(s)` on an ASCII string: an optional sign followed by at
least one digit; anything else raises `ValueError` (modelled as `none`).
(Pythonic extras such as surrounding whitespace or `_` separators are not
modelled; no input in this development uses them.) -/
def pyInt (s : String) : Option Int :=
  match s.data with
  | [] => none
  | '-' :: ds =>
      if ds ≠ [] ∧ ds.all Char.isDigit then some (-(digitsToNat ds : Int)) else none
  | '+' :: ds =>
      if ds ≠ [] ∧ ds.all Char.isDigit then some (digitsToNat ds) else none
  | ds =>
      if ds ≠ [] ∧ ds.all Char.isDigit then some (digitsToNat ds) else none

/-- Python int applied to the amount form field with default 0: a
missing field defaults to the
integer `0` (and `int(0) = 0`); a present field is the submitted string and
goes through `int(...)`. -/
def py_int_of_field (field : Option String) : Option Int :=
  match field with
  | none => some 0
  | some s => pyInt s

/-- The `/process_payment` handler body. `int(...)` may raise (then Flask
answers with a server error and nothing is appended); otherwise the new
contribution is appended at the end of the list, the session is updated,
and the handler redirects to `/success`. `now` is the formatted
`datetime.now()` string. -/
def process_payment (form_amount form_name : Option String) (now : String)
    (st : List Contribution) (_sess : Session) :
    Except Unit (List Contribution × Session × Redirect) :=
  match py_int_of_field form_amount with
  | none => .error ()
  | some amount =>
      let name := form_name.getD "Anonymous"
      let c : Contribution := ⟨name, amount, now⟩
      .ok (st ++ [c], ⟨some amount, some name⟩, .success)

/-- Python sum over the amount fields of the stored contributions. -/
def total_amount (st : List Contribution) : Int :=
  (st.map (fun c => c.amount)).sum

/-- The `/contributions` handler: the template receives the contributions
list itself and the computed total. -/
def view_contributions (st : List Contribution) : List Contribution × Int :=
  (st, total_amount st)

/-- The GET branch of `/gift_suggestions`: the keyword derived from the
aggregate amount by the four-way threshold chain. -/
def default_keyword (amount : Int) : String :=
  if amount ≤ 15 then "practical"
  else if amount ≤ 25 then "fun"
  else if amount ≤ 35 then "luxury"
  else "premium"

/-- Python `str.lower()` (the app only ever lowercases ASCII keywords;
`Char.toLower` is exactly the ASCII case map). -/
def pyLower (s : String) : String :=
  ⟨s.data.map Char.toLower⟩

/-- Helper for `pyTitle`: the Boolean records whether the previous
character was alphabetic (i.e. whether we are inside a word). -/
def titleChars : Bool → List Char → List Char
  | _, [] => []
  | prevAlpha, c :: cs =>
      if c.isAlpha then
        (if prevAlpha then c.toLower else c.toUpper) :: titleChars true cs
      else
        c :: titleChars false cs

/-- Python `str.title()` on ASCII: the first letter of each word is
uppercased, every other letter lowercased. -/
def pyTitle (s : String) : String :=
  ⟨titleChars false s.data⟩

/-- Model of the two chained replace calls: every dollar sign and comma
is removed. -/
def strip_money_chars (s : String) : String :=
  ⟨s.data.filter (fun c => ¬ (c = '$' ∨ c = ','))⟩

/-- Python `float(s)` on plain decimal strings: optional sign, then digits
with at most one decimal point and at least one digit; the value is exact
(`ℚ`). Any other string raises `ValueError` (modelled as `none`; exponent
and `inf`/`nan` forms are not modelled — no input in this development uses
them). -/
def parseFloat (s : String) : Option ℚ :=
  let cs0 := s.data
  let neg : Bool := cs0.head? = some '-'
  let cs := if cs0.head? = some '-' ∨ cs0.head? = some '+' then cs0.tail else cs0
  let ip := cs.takeWhile Char.isDigit
  let rest := cs.dropWhile Char.isDigit
  match rest with
  | [] =>
      if ip = [] then none
      else some ((if neg then (-1 : ℚ) else 1) * (digitsToNat ip : ℚ))
  | '.' :: fp =>
      if fp.all Char.isDigit ∧ (ip ≠ [] ∨ fp ≠ []) then
        some ((if neg then (-1 : ℚ) else 1) *
          ((digitsToNat ip : ℚ) + (digitsToNat fp : ℚ) / (10 : ℚ) ^ fp.length))
      else none
  | _ => none

/-- Composition of the money-character strip with float conversion: the price
normalization applied by `get_gift_suggestions` to string-typed prices. -/
def normalize_price (s : String) : Option ℚ :=
  parseFloat (strip_money_chars s)

/-- A `price` field of a parsed JSON suggestion: a string or a number. -/
inductive PriceField where
  | str (s : String)
  | num (q : ℚ)
deriving DecidableEq

/-- One element of the JSON array parsed from the model response; `price`
is `none` when the object has no `price` key. -/
structure RawSuggestion where
  name : String
  description : String
  price : Option PriceField
  reason : String
deriving DecidableEq

/-- A suggestion as handed to the template. -/
structure Suggestion where
  name : String
  description : String
  price : Option ℚ
  reason : String
  image_url : Option String
deriving DecidableEq

/-- One iteration of the success-path `for` loop of
`get_gift_suggestions`: a string price is normalized (a failing `float(…)`
raises, modelled as `none`, and is caught by the surrounding `except`);
`image_url` becomes `images[i]` when `i < len(images)` and `None`
otherwise. -/
def normalizeRaw (images : List String) (i : Nat) (r : RawSuggestion) :
    Option Suggestion :=
  match r.price with
  | some (.str s) =>
      (normalize_price s).map fun q =>
        ⟨r.name, r.description, some q, r.reason, images.get? i⟩
  | some (.num q) => some ⟨r.name, r.description, some q, r.reason, images.get? i⟩
  | none => some ⟨r.name, r.description, none, r.reason, images.get? i⟩

/-- The whole success-path `for` loop: `none` when any iteration raises
(the partially mutated list is then discarded by the `except` branch). -/
def normalizeAll (images : List String) : Nat → List RawSuggestion →
    Option (List Suggestion)
  | _, [] => some []
  | i, r :: rs =>
      match normalizeRaw images i r with
      | none => none
      | some s => (normalizeAll images (i + 1) rs).map (fun l => s :: l)

/-- The practical entry of the `fallback_suggestions` dict. -/
def practical_fallback (images : List String) (budget : Int) : List Suggestion :=
  [ ⟨"Multi-tool Kit",
     "A compact multi-tool with various functions for everyday use. Perfect for someone who appreciates functional and reliable tools.",
     some (budget : ℚ),
     "Combines practicality with versatility for daily tasks.",
     images.get? 0⟩,
    ⟨"Insulated Water Bottle",
     "Stainless steel water bottle that keeps drinks cold for 24 hours or hot for 12 hours. Eco-friendly and durable.",
     some (budget : ℚ),
     "Essential for staying hydrated on the go.",
     images.get? 1⟩,
    ⟨"Portable Charger",
     "Compact power bank for charging devices on the go. Fast charging technology with multiple USB ports.",
     some (budget : ℚ),
     "Never run out of battery when you need it most.",
     images.get? 2⟩ ]

/-- The fun entry of the `fallback_suggestions` dict. -/
def fun_fallback (images : List String) (budget : Int) : List Suggestion :=
  [ ⟨"Strategy Board Game",
     "Engaging board game perfect for family game nights. Hours of entertainment with challenging gameplay.",
     some (budget : ℚ),
     "Creates memorable moments with friends and family.",
     images.get? 0⟩,
    ⟨"Wireless Gaming Headphones",
     "High-quality wireless headphones with surround sound for immersive gaming experience.",
     some (budget : ℚ),
     "Enhances gaming sessions with superior audio quality.",
     images.get? 1⟩,
    ⟨"3D Puzzle Set",
     "Challenging 3D puzzle set for hours of creative entertainment. Develops problem-solving skills.",
     some (budget : ℚ),
     "Provides intellectual stimulation and satisfaction of completion.",
     images.get? 2⟩ ]

/-- The luxury entry of the `fallback_suggestions` dict. -/
def luxury_fallback (images : List String) (budget : Int) : List Suggestion :=
  [ ⟨"Designer Leather Wallet",
     "Premium leather wallet with multiple card slots and RFID protection. Handcrafted with attention to detail.",
     some (budget : ℚ),
     "Elevates everyday carry with sophistication and quality.",
     images.get? 0⟩,
    ⟨"Artisan Scented Candle Collection",
     "Luxury scented candles with elegant fragrances. Hand-poured with natural soy wax and essential oils.",
     some (budget : ℚ),
     "Creates a relaxing ambiance and aromatic experience.",
     images.get? 1⟩,
    ⟨"Silk Sleep Mask",
     "Beautiful silk sleep mask with adjustable strap. Ultra-soft and comfortable for better sleep.",
     some (budget : ℚ),
     "Promotes restful sleep with luxurious comfort.",
     images.get? 2⟩ ]

/-- The premium entry of the `fallback_suggestions` dict. -/
def premium_fallback (images : List String) (budget : Int) : List Suggestion :=
  [ ⟨"Smart Fitness Watch",
     "Advanced smartwatch with health tracking, GPS, and heart rate monitoring. Premium build quality.",
     some (budget : ℚ),
     "Combines technology with health and fitness tracking.",
     images.get? 0⟩,
    ⟨"Wireless Noise-Cancelling Earbuds",
     "Premium wireless earbuds with active noise cancellation and superior sound quality.",
     some (budget : ℚ),
     "Delivers exceptional audio experience in any environment.",
     images.get? 1⟩,
    ⟨"Executive Leather Briefcase",
     "High-quality leather briefcase with organized compartments and professional design.",
     some (budget : ℚ),
     "Perfect for the modern professional who values quality and style.",
     images.get? 2⟩ ]

/-- The `fallback_suggestions` dict as a lookup on its key. -/
def fallback_suggestions (images : List String) (budget : Int) (key : String) :
    Option (List Suggestion) :=
  if key = "practical" then some (practical_fallback images budget)
  else if key = "fun" then some (fun_fallback images budget)
  else if key = "luxury" then some (luxury_fallback images budget)
  else if key = "premium" then some (premium_fallback images budget)
  else none

/-- The default argument of `fallback_suggestions.get(...)`: the generic
templated pair for an unrecognized keyword. The second price is
`budget - 5 if budget > 5 else budget`. -/
def generic_fallback (images : List String) (keyword : String) (budget : Int) :
    List Suggestion :=
  [ ⟨"Premium " ++ pyTitle keyword ++ " Gift",
     "A thoughtful and high-quality gift related to " ++ keyword ++ " interests. Carefully selected for its excellence and appeal.",
     some (budget : ℚ),
     "Matches " ++ keyword ++ " interests with premium quality and attention to detail.",
     images.get? 0⟩,
    ⟨"Custom " ++ pyTitle keyword ++ " Experience",
     "Personalized experience based on " ++ keyword ++ " preferences. Unique and memorable way to celebrate.",
     some (((if 5 < budget then budget - 5 else budget) : Int) : ℚ),
     "Creates lasting memories centered around " ++ keyword ++ " passion.",
     images.get? 1⟩ ]

/-- The `except` branch of `get_gift_suggestions`:
`fallback_suggestions.get(keyword.lower(), generic)`. The trailing
image-decoration loop of the source is the identity here because every
fallback item already carries an `image_url` key. -/
def fallback_result (images : List String) (keyword : String) (budget : Int) :
    List Suggestion :=
  (fallback_suggestions images budget (pyLower keyword)).getD
    (generic_fallback images keyword budget)

/-- Model of `get_gift_suggestions`. Here `gen` is the outcome of the
generation path (model call, response stripping, `json.loads`): the parsed
array or any exception. `imagesFor n` is the result of
`get_gift_images(keyword, n)` (which never raises). On success the parsed
suggestions are normalized and decorated; any exception — including a
failing `float(...)` during normalization — lands in the `except` branch,
which fetches five images and selects a static fallback list. -/
def get_gift_suggestions (gen : Except Unit (List RawSuggestion))
    (imagesFor : Nat → List String) (keyword : String) (budget : Int) :
    List Suggestion :=
  match gen with
  | .error _ => fallback_result (imagesFor 5) keyword budget
  | .ok raws =>
      match normalizeAll (imagesFor raws.length) 0 raws with
      | some suggs => suggs
      | none => fallback_result (imagesFor 5) keyword budget

/-- The Unsplash request URL built by `get_gift_images`. -/
def unsplash_url (keyword : String) (count : Nat) : String :=
  "https://api.unsplash.com/search/photos?query=" ++ keyword ++
    "+gift&per_page=" ++ toString count ++ "&orientation=landscape"

/-- Model of `get_gift_images`. Here `access_key` is
the UNSPLASH_ACCESS_KEY environment variable, `none` when unset (the
Python truthiness test also treats an empty string as missing); and
unset or empty variable); `fetch` maps the request URL to the extracted
`urls.regular` list, or to an error for any exception in the request,
`raise_for_status`, JSON decoding or field extraction. -/
def get_gift_images (access_key : Option String)
    (fetch : String → Except Unit (List String))
    (keyword : String) (count : Nat) : List String :=
  if access_key = none ∨ access_key = some "" then []
  else
    match fetch (unsplash_url keyword count) with
    | .error _ => []
    | .ok urls => urls

/-- The data the `/gift_suggestions` template receives. -/
structure GiftPage where
  keyword : String
  amount : Int
  suggestions : List Suggestion
deriving DecidableEq

/-- The GET branch of the `/gift_suggestions` handler: the amount is the
aggregate of all contributions, the keyword is derived from it by the
threshold chain, and the suggestions come from `get_gift_suggestions`. -/
def gift_suggestions_get (gen : Except Unit (List RawSuggestion))
    (imagesFor : Nat → List String) (st : List Contribution) : GiftPage :=
  let amount := total_amount st
  let keyword := default_keyword amount
  ⟨keyword, amount, get_gift_suggestions gen imagesFor keyword amount⟩

/-- One incoming request, with the data (and external-service oracles) its
handler consumes. -/
inductive HandlerCall where
  | index
  | contribute (form_amount form_name : String)
  | payment (q_amount q_name : Option String)
  | successPage
  | viewAll
  | giftKeywordPage
  | giftSuggestionsPage (isPost : Bool) (form_keyword form_custom : Option String)
      (gen : Except Unit (List RawSuggestion)) (imagesFor : Nat → List String)
  | processPayment (form_amount form_name : Option String) (now : String)

/-- Effect of one handler invocation on the shared state: every handler
except `/process_payment` only reads `contributions` (or nothing), and a
`/process_payment` whose `int(...)` raises leaves the state unchanged. -/
def step (s : List Contribution × Session) : HandlerCall →
    List Contribution × Session
  | .index => s
  | .contribute _ _ => s
  | .payment _ _ => s
  | .successPage => s
  | .viewAll => s
  | .giftKeywordPage => s
  | .giftSuggestionsPage _ _ _ _ _ => s
  | .processPayment fa fn now =>
      match process_payment fa fn now s.1 s.2 with
      | .ok (st, sess, _) => (st, sess)
      | .error _ => s

/-- One `/process_payment` POST: its two form fields and the timestamp. -/
structure PayReq where
  form_amount : Option String
  form_name : Option String
  now : String
deriving DecidableEq

/-- The contribution a successful `/process_payment` records for a
request. -/
def recorded (r : PayReq) : Contribution :=
  ⟨r.form_name.getD "Anonymous", (py_int_of_field r.form_amount).getD 0, r.now⟩

/-- A sequence of `/process_payment` requests run in order. -/
def run_payments (rs : List PayReq) (s : List Contribution × Session) :
    List Contribution × Session :=
  match rs with
  | [] => s
  | r :: rest =>
      run_payments rest (step s (.processPayment r.form_amount r.form_name r.now))

/-- Test that `n` is an initial segment of `h`. -/
def matchesAt : List Char → List Char → Bool
  | [], _ => true
  | _ :: _, [] => false
  | a :: as, b :: bs => a = b && matchesAt as bs

/-- Test that `n` occurs contiguously inside `h`. -/
def listHasSub (n : List Char) : List Char → Bool
  | [] => n.isEmpty
  | c :: cs => matchesAt n (c :: cs) || listHasSub n cs

/-- Substring test: Python `needle in hay`. -/
def strContains (hay needle : String) : Bool :=
  listHasSub needle.data hay.data

/-- C2: on a GET request, `/gift_suggestions` derives the default keyword
from the aggregate contribution amount by the four thresholds, with 15, 25
and 35 falling in the lower band: amount ≤ 15 gives "practical",
15 < amount ≤ 25 gives "fun", 25 < amount ≤ 35 gives "luxury", and
35 < amount gives "premium". -/
theorem gift_suggestions_get_keyword_thresholds
    (gen : Except Unit (List RawSuggestion)) (imagesFor : Nat → List String)
    (st : List Contribution) :
    (gift_suggestions_get gen imagesFor st).keyword
        = default_keyword (total_amount st)
    ∧ (total_amount st ≤ 15 →
        (gift_suggestions_get gen imagesFor st).keyword = "practical")
    ∧ (15 < total_amount st → total_amount st ≤ 25 →
        (gift_suggestions_get gen imagesFor st).keyword = "fun")
    ∧ (25 < total_amount st → total_amount st ≤ 35 →
        (gift_suggestions_get gen imagesFor st).keyword = "luxury")
    ∧ (35 < total_amount st →
        (gift_suggestions_get gen imagesFor st).keyword = "premium") := by
  have hk : (gift_suggestions_get gen imagesFor st).keyword
      = default_keyword (total_amount st) := rfl
  refine ⟨hk, fun h => ?_, fun h1 h2 => ?_, fun h1 h2 => ?_, fun h1 => ?_⟩ <;>
    rw [hk] <;> unfold default_keyword
  · rw [if_pos h]
  · rw [if_neg (not_le.mpr h1), if_pos h2]
  · rw [if_neg (by omega : ¬ total_amount st ≤ 15),
        if_neg (not_le.mpr h1), if_pos h2]
  · rw [if_neg (by omega : ¬ total_amount st ≤ 15),
        if_neg (by omega : ¬ total_amount st ≤ 25), if_neg (not_le.mpr h1)]

/-- Witness for C2: a single recorded contribution of 40 makes the GET
handler pick the keyword "premium". -/
theorem gift_suggestions_get_keyword_thresholds_witness :
    (gift_suggestions_get (.error ()) (fun _ => [])
        [⟨"A", 40, "2024-05-01 10:00:00"⟩]).keyword = "premium" :=
  (gift_suggestions_get_keyword_thresholds (.error ()) (fun _ => [])
    [⟨"A", 40, "2024-05-01 10:00:00"⟩]).2.2.2.2 (by decide)

/-- C3: when the generation path fails and the keyword is "practical",
`get_gift_suggestions` returns exactly the fixed practical fallback list —
3 items (within the claimed 2–3), with the fixed names — and the price of
price equals the supplied budget. -/
theorem practical_fallback_on_failure (imagesFor : Nat → List String)
    (budget : Int) :
    get_gift_suggestions (.error ()) imagesFor "practical" budget
        = practical_fallback (imagesFor 5) budget
    ∧ (get_gift_suggestions (.error ()) imagesFor "practical" budget).length = 3
    ∧ ((get_gift_suggestions (.error ()) imagesFor "practical" budget).map
        (fun sg => sg.name))
        = ["Multi-tool Kit", "Insulated Water Bottle", "Portable Charger"]
    ∧ ∀ sg ∈ get_gift_suggestions (.error ()) imagesFor "practical" budget,
        sg.price = some (budget : ℚ) := by
  have he : get_gift_suggestions (.error ()) imagesFor "practical" budget
      = practical_fallback (imagesFor 5) budget := rfl
  refine ⟨he, by rw [he]; rfl, by rw [he]; rfl, ?_⟩
  rw [he]
  intro sg hsg
  simp only [practical_fallback, List.mem_cons, List.not_mem_nil, or_false] at hsg
  rcases hsg with rfl | rfl | rfl <;> rfl

/-- Witness for C3: with budget 7 and no images, the failed generation
returns the 3 practical items, each priced 7. -/
theorem practical_fallback_on_failure_witness :
    (get_gift_suggestions (.error ()) (fun _ => []) "practical" 7).length = 3
    ∧ ((get_gift_suggestions (.error ()) (fun _ => []) "practical" 7).map
        (fun sg => sg.name))
        = ["Multi-tool Kit", "Insulated Water Bottle", "Portable Charger"]
    ∧ ((get_gift_suggestions (.error ()) (fun _ => []) "practical" 7).map
        (fun sg => sg.price))
        = [some ((7 : Int) : ℚ), some ((7 : Int) : ℚ), some ((7 : Int) : ℚ)] := by
  have h := practical_fallback_on_failure (fun _ => []) 7
  exact ⟨h.2.1, h.2.2.1, by rw [h.1]; rfl⟩

/-- C8: the contribution sequence is append-only across every handler: a
handler invocation either leaves the stored list unchanged, or it is a
`/process_payment` request and the new list is the old one with exactly
one record appended at the end. -/
theorem contributions_append_only (s : List Contribution × Session)
    (call : HandlerCall) :
    (step s call).1 = s.1
    ∨ ∃ c fa fn now, call = .processPayment fa fn now
        ∧ (step s call).1 = s.1 ++ [c] := by
  cases call with
  | index => exact Or.inl rfl
  | contribute a b => exact Or.inl rfl
  | payment a b => exact Or.inl rfl
  | successPage => exact Or.inl rfl
  | viewAll => exact Or.inl rfl
  | giftKeywordPage => exact Or.inl rfl
  | giftSuggestionsPage a b c d e => exact Or.inl rfl
  | processPayment fa fn now =>
      cases h : py_int_of_field fa with
      | none =>
          left
          simp [step, process_payment, h]
      | some a =>
          right
          exact ⟨⟨fn.getD "Anonymous", a, now⟩, fa, fn, now, rfl,
            by simp [step, process_payment, h]⟩

/-- Counterexample to C10 as stated: a POST to `/process_payment` that
omits the `name` field but carries a non-numeric `amount` raises in
`int(...)` — the handler errors instead of recording a contribution. -/
theorem process_payment_missing_name_can_error :
    process_payment (some "abc") none "2024-05-01 10:00:00" [] ⟨none, none⟩
      = .error () := rfl

/-- C10 (amended): a missing `amount` field is recorded as 0 and a missing
`name` field as "Anonymous", with a redirect to the success page, provided
that an `amount` value, when supplied, parses as an integer. -/
theorem process_payment_missing_field_defaults (fa fn : Option String)
    (now : String) (st : List Contribution) (sess : Session) (a : Int)
    (h : py_int_of_field fa = some a) :
    process_payment none fn now st sess
        = .ok (st ++ [⟨fn.getD "Anonymous", 0, now⟩],
            ⟨some 0, some (fn.getD "Anonymous")⟩, .success)
    ∧ process_payment fa none now st sess
        = .ok (st ++ [⟨"Anonymous", a, now⟩], ⟨some a, some "Anonymous"⟩,
            .success) := by
  constructor
  · rfl
  · unfold process_payment
    rw [h]
    rfl

/-- Witness for the amended C10: with `amount = "7"` and no `name`, the
record is ("Anonymous", 7); with neither field, it is ("Anonymous", 0). -/
theorem process_payment_missing_field_defaults_witness :
    process_payment none none "2024-05-01 10:00:00" [] ⟨none, none⟩
        = .ok ([] ++ [⟨"Anonymous", 0, "2024-05-01 10:00:00"⟩],
            ⟨some 0, some "Anonymous"⟩, .success)
    ∧ process_payment (some "7") none "2024-05-01 10:00:00" [] ⟨none, none⟩
        = .ok ([] ++ [⟨"Anonymous", 7, "2024-05-01 10:00:00"⟩],
            ⟨some 7, some "Anonymous"⟩, .success) :=
  process_payment_missing_field_defaults (some "7") none "2024-05-01 10:00:00"
    [] ⟨none, none⟩ 7 (by decide)

/-- Helper: a run of `/process_payment` requests whose amounts all parse
appends exactly the recorded contributions, in request order. -/
theorem run_payments_all_ok (rs : List PayReq)
    (s : List Contribution × Session)
    (h : ∀ r ∈ rs, (py_int_of_field r.form_amount).isSome) :
    (run_payments rs s).1 = s.1 ++ rs.map recorded := by
  induction rs generalizing s with
  | nil => simp [run_payments]
  | cons r rest ih =>
      obtain ⟨a, ha⟩ := Option.isSome_iff_exists.mp (h r (by simp))
      have hstep : step s (.processPayment r.form_amount r.form_name r.now)
          = (s.1 ++ [recorded r], ⟨some a, some (r.form_name.getD "Anonymous")⟩) := by
        simp [step, process_payment, ha, recorded]
      rw [run_payments,
        ih (step s (.processPayment r.form_amount r.form_name r.now))
          (fun x hx => h x (by simp [hx])), hstep]
      simp

/-- C1: after any sequence of successfully processed contributions, the
`/contributions` handler passes the records to the template in insertion
order, and the rendered total is exactly the sum of their amounts. -/
theorem contributions_view_exact (rs : List PayReq) (s0 : Session)
    (h : ∀ r ∈ rs, (py_int_of_field r.form_amount).isSome) :
    (view_contributions (run_payments rs ([], s0)).1).1 = rs.map recorded
    ∧ (view_contributions (run_payments rs ([], s0)).1).2
        = (rs.map (fun r => (recorded r).amount)).sum := by
  have hr := run_payments_all_ok rs ([], s0) h
  constructor
  · show (run_payments rs ([], s0)).1 = rs.map recorded
    rw [hr]
    rfl
  · show total_amount (run_payments rs ([], s0)).1
        = (rs.map (fun r => (recorded r).amount)).sum
    rw [hr]
    show ((rs.map recorded).map (fun c => c.amount)).sum = _
    rw [List.map_map]
    rfl

/-- Witness for C1: two confirmed contributions of 5 and 0 display in
order with total 5. -/
theorem contributions_view_exact_witness :
    (view_contributions (run_payments
        [⟨some "5", some "Bob", "t1"⟩, ⟨none, none, "t2"⟩]
        ([], ⟨none, none⟩)).1).1
      = [⟨"Bob", 5, "t1"⟩, ⟨"Anonymous", 0, "t2"⟩]
    ∧ (view_contributions (run_payments
        [⟨some "5", some "Bob", "t1"⟩, ⟨none, none, "t2"⟩]
        ([], ⟨none, none⟩)).1).2 = 5 :=
  ⟨(contributions_view_exact
      [⟨some "5", some "Bob", "t1"⟩, ⟨none, none, "t2"⟩] ⟨none, none⟩
      (by decide)).1.trans (by decide),
   (contributions_view_exact
      [⟨some "5", some "Bob", "t1"⟩, ⟨none, none, "t2"⟩] ⟨none, none⟩
      (by decide)).2.trans (by decide)⟩

/-- C6: `get_gift_images` never raises and returns at most `count` URLs
whenever the image API honors the `per_page={count}` parameter it is sent;
it returns the empty list when the credential is missing or the lookup
errors, and an errored lookup is indistinguishable from an empty result. -/
theorem get_gift_images_bounded_and_safe (access_key : Option String)
    (fetch : String → Except Unit (List String)) (keyword : String)
    (count : Nat)
    (hcount : ∀ urls, fetch (unsplash_url keyword count) = .ok urls →
        urls.length ≤ count) :
    (get_gift_images access_key fetch keyword count).length ≤ count
    ∧ (access_key = none → get_gift_images access_key fetch keyword count = [])
    ∧ (fetch (unsplash_url keyword count) = .error () →
        get_gift_images access_key fetch keyword count = [])
    ∧ (∀ f1 f2 : String → Except Unit (List String),
        f1 (unsplash_url keyword count) = .error () →
        f2 (unsplash_url keyword count) = .ok [] →
        get_gift_images access_key f1 keyword count
          = get_gift_images access_key f2 keyword count) := by
  refine ⟨?_, fun hak => ?_, fun hf => ?_, fun f1 f2 h1 h2 => ?_⟩
  · by_cases hak : access_key = none ∨ access_key = some ""
    · simp [get_gift_images, hak]
    · rw [get_gift_images, if_neg hak]
      cases hf : fetch (unsplash_url keyword count) with
      | error u => exact Nat.zero_le count
      | ok urls => exact hcount urls hf
  · simp [get_gift_images, hak]
  · by_cases hak : access_key = none ∨ access_key = some ""
    · simp [get_gift_images, hak]
    · rw [get_gift_images, if_neg hak, hf]
  · by_cases hak : access_key = none ∨ access_key = some ""
    · simp [get_gift_images, hak]
    · rw [get_gift_images, if_neg hak, h1, get_gift_images, if_neg hak, h2]

/-- Witness for C6: a one-result lookup with a set credential stays within
the bound 5, and the missing-credential and error cases give [], identical
to an empty result. -/
theorem get_gift_images_bounded_and_safe_witness :
    (get_gift_images (some "key") (fun _ => .ok ["u1"]) "toys" 5).length ≤ 5
    ∧ get_gift_images none (fun _ => .ok ["u1"]) "toys" 5 = []
    ∧ get_gift_images (some "key") (fun _ => .error ()) "toys" 5 = []
    ∧ get_gift_images (some "key") (fun _ => .error ()) "toys" 5
        = get_gift_images (some "key") (fun _ => .ok []) "toys" 5 := by
  have h1 := get_gift_images_bounded_and_safe (some "key")
    (fun _ => .ok ["u1"]) "toys" 5 (by intro urls hu; cases hu; decide)
  have h2 := get_gift_images_bounded_and_safe none
    (fun _ => .ok ["u1"]) "toys" 5 (by intro urls hu; cases hu; decide)
  have h3 := get_gift_images_bounded_and_safe (some "key")
    (fun _ => .error ()) "toys" 5 (by intro urls hu; cases hu)
  exact ⟨h1.1, h2.2.1 rfl, h3.2.2.1 rfl,
    h3.2.2.2 (fun _ => .error ()) (fun _ => .ok []) rfl rfl⟩

/-- C7: every exception in the generation path of `get_gift_suggestions`
is caught — an errored generation outcome, or a normalization failure
after a successful parse, yields the fallback list instead of propagating —
and the fallback table is keyed on the lowercased keyword, so two keywords
equal up to case make the same table selection, and when that selection
hits, both return that very table entry. -/
theorem get_gift_suggestions_catch_and_case (gen : Except Unit (List RawSuggestion))
    (imagesFor : Nat → List String) (k1 k2 : String) (budget : Int)
    (hk : pyLower k1 = pyLower k2) :
    get_gift_suggestions (.error ()) imagesFor k1 budget
        = fallback_result (imagesFor 5) k1 budget
    ∧ (∀ raws, gen = .ok raws →
        normalizeAll (imagesFor raws.length) 0 raws = none →
        get_gift_suggestions gen imagesFor k1 budget
          = fallback_result (imagesFor 5) k1 budget)
    ∧ (∀ images, fallback_suggestions images budget (pyLower k1)
          = fallback_suggestions images budget (pyLower k2))
    ∧ (∀ images l, fallback_suggestions images budget (pyLower k1) = some l →
        fallback_result images k1 budget = l
        ∧ fallback_result images k2 budget = l) := by
  refine ⟨rfl, ?_, fun images => by rw [hk], fun images l hl => ?_⟩
  · rintro raws rfl hn
    simp [get_gift_suggestions, hn]
  · constructor
    · rw [fallback_result, hl]
      rfl
    · rw [fallback_result, ← hk, hl]
      rfl

/-- Witness for C7: "PRACTICAL" and "practical" both select the practical
table entry, and a failed generation returns it for either spelling. -/
theorem get_gift_suggestions_catch_and_case_witness :
    get_gift_suggestions (.error ()) (fun _ => []) "PRACTICAL" 10
        = fallback_result [] "PRACTICAL" 10
    ∧ fallback_suggestions [] 10 (pyLower "PRACTICAL")
        = fallback_suggestions [] 10 (pyLower "practical")
    ∧ fallback_result [] "PRACTICAL" 10 = practical_fallback [] 10
    ∧ fallback_result [] "practical" 10 = practical_fallback [] 10 := by
  have h := get_gift_suggestions_catch_and_case (.error ()) (fun _ => [])
    "PRACTICAL" "practical" 10 (by decide)
  have hl : fallback_suggestions ([] : List String) 10 (pyLower "PRACTICAL")
      = some (practical_fallback [] 10) := rfl
  have hc := h.2.2.2 [] (practical_fallback [] 10) hl
  exact ⟨h.1, h.2.2.1 [], hc.1, hc.2⟩

/-- Helper: a list is an initial segment of itself followed by anything. -/
theorem matchesAt_self_append (n t : List Char) : matchesAt n (n ++ t) = true := by
  induction n with
  | nil => rfl
  | cons c cs ih => simp [matchesAt, ih]

/-- Helper: a match at the front is an occurrence. -/
theorem listHasSub_of_matchesAt (n h : List Char) (hm : matchesAt n h = true) :
    listHasSub n h = true := by
  cases h with
  | nil =>
      cases n with
      | nil => rfl
      | cons c cs => simp [matchesAt] at hm
  | cons c cs => simp [listHasSub, hm]

/-- Helper: an occurrence survives prepending. -/
theorem listHasSub_append_left (n pre t : List Char)
    (ht : listHasSub n t = true) : listHasSub n (pre ++ t) = true := by
  induction pre with
  | nil => simpa using ht
  | cons c cs ih =>
      rw [List.cons_append, listHasSub, Bool.or_eq_true]
      exact Or.inr ih

/-- Helper: `mid` occurs in `pre ++ mid ++ post`. -/
theorem strContains_sandwich (pre mid post : String) :
    strContains (pre ++ mid ++ post) mid = true := by
  obtain ⟨lp⟩ := pre
  obtain ⟨lm⟩ := mid
  obtain ⟨lo⟩ := post
  show listHasSub lm ((lp ++ lm) ++ lo) = true
  rw [List.append_assoc]
  exact listHasSub_append_left lm lp (lm ++ lo)
    (listHasSub_of_matchesAt lm (lm ++ lo) (matchesAt_self_append lm lo))

/-- Helper: for a keyword outside the fallback table, a failed generation
returns the generic templated pair. -/
theorem generic_fallback_eq (keyword : String) (budget : Int)
    (imagesFor : Nat → List String)
    (h1 : pyLower keyword ≠ "practical") (h2 : pyLower keyword ≠ "fun")
    (h3 : pyLower keyword ≠ "luxury") (h4 : pyLower keyword ≠ "premium") :
    get_gift_suggestions (.error ()) imagesFor keyword budget
      = generic_fallback (imagesFor 5) keyword budget := by
  show fallback_result (imagesFor 5) keyword budget = _
  rw [fallback_result, fallback_suggestions,
    if_neg h1, if_neg h2, if_neg h3, if_neg h4]
  rfl

/-- Counterexample to C4 as stated: for the unrecognized keyword "books"
the generic fallback names are "Premium Books Gift" and "Custom Books
Experience" — built from `keyword.title()` — so the keyword "books" is not
embedded verbatim in either item name. -/
theorem generic_fallback_names_not_verbatim :
    ((get_gift_suggestions (.error ()) (fun _ => []) "books" 20).map
        (fun sg => sg.name))
      = ["Premium Books Gift", "Custom Books Experience"]
    ∧ ((get_gift_suggestions (.error ()) (fun _ => []) "books" 20).map
        (fun sg => strContains sg.name "books"))
      = [false, false] := by
  constructor <;> rfl

/-- C4 (amended): for every keyword outside the fallback table and a
failed generation, `get_gift_suggestions` returns the generic two-item
templated pair, and each item name embeds the title-cased keyword
(`keyword.title()`) verbatim. -/
theorem generic_fallback_titled_names (keyword : String) (budget : Int)
    (imagesFor : Nat → List String)
    (h1 : pyLower keyword ≠ "practical") (h2 : pyLower keyword ≠ "fun")
    (h3 : pyLower keyword ≠ "luxury") (h4 : pyLower keyword ≠ "premium") :
    get_gift_suggestions (.error ()) imagesFor keyword budget
        = generic_fallback (imagesFor 5) keyword budget
    ∧ (get_gift_suggestions (.error ()) imagesFor keyword budget).length = 2
    ∧ ∀ sg ∈ get_gift_suggestions (.error ()) imagesFor keyword budget,
        strContains sg.name (pyTitle keyword) = true := by
  have he := generic_fallback_eq keyword budget imagesFor h1 h2 h3 h4
  refine ⟨he, by rw [he]; rfl, ?_⟩
  rw [he]
  intro sg hsg
  simp only [generic_fallback, List.mem_cons, List.not_mem_nil, or_false] at hsg
  rcases hsg with rfl | rfl
  · exact strContains_sandwich "Premium " (pyTitle keyword) " Gift"
  · exact strContains_sandwich "Custom " (pyTitle keyword) " Experience"

/-- Witness for the amended C4: keyword "books" yields the two generic
items, whose names both embed "Books". -/
theorem generic_fallback_titled_names_witness :
    get_gift_suggestions (.error ()) (fun _ => []) "books" 20
        = generic_fallback [] "books" 20
    ∧ (get_gift_suggestions (.error ()) (fun _ => []) "books" 20).length = 2
    ∧ ((get_gift_suggestions (.error ()) (fun _ => []) "books" 20).map
        (fun sg => strContains sg.name (pyTitle "books")))
      = [true, true] := by
  have h := generic_fallback_titled_names "books" 20 (fun _ => [])
    (by decide) (by decide) (by decide) (by decide)
  exact ⟨h.1, h.2.1, by rw [h.1]; rfl⟩

/-- C9: in the generic templated fallback the first price is the budget
and the second is `budget - 5` when the budget exceeds 5 (the budget
itself otherwise), so for budgets above 5 the two prices differ. -/
theorem generic_fallback_two_prices (keyword : String) (budget : Int)
    (imagesFor : Nat → List String)
    (h1 : pyLower keyword ≠ "practical") (h2 : pyLower keyword ≠ "fun")
    (h3 : pyLower keyword ≠ "luxury") (h4 : pyLower keyword ≠ "premium") :
    ((get_gift_suggestions (.error ()) imagesFor keyword budget).map
        (fun sg => sg.price))
        = [some (budget : ℚ),
           some (((if 5 < budget then budget - 5 else budget) : Int) : ℚ)]
    ∧ (5 < budget →
        ((get_gift_suggestions (.error ()) imagesFor keyword budget).map
            (fun sg => sg.price))
          = [some (budget : ℚ), some ((budget - 5 : Int) : ℚ)]
        ∧ some ((budget : Int) : ℚ) ≠ some ((budget - 5 : Int) : ℚ)) := by
  have he := generic_fallback_eq keyword budget imagesFor h1 h2 h3 h4
  have hmap : ((get_gift_suggestions (.error ()) imagesFor keyword budget).map
      (fun sg => sg.price))
      = [some (budget : ℚ),
         some (((if 5 < budget then budget - 5 else budget) : Int) : ℚ)] := by
    rw [he]
    rfl
  refine ⟨hmap, fun hb => ⟨?_, ?_⟩⟩
  · rw [hmap, if_pos hb]
  · intro hcontra
    have : (budget : ℚ) = ((budget - 5 : Int) : ℚ) := Option.some_inj.mp hcontra
    have : (budget : Int) = budget - 5 := Int.cast_injective this
    omega

/-- Witness for C9: keyword "books" with budget 20 gives prices 20 and
20 - 5, which differ. -/
theorem generic_fallback_two_prices_witness :
    ((get_gift_suggestions (.error ()) (fun _ => []) "books" 20).map
        (fun sg => sg.price))
      = [some ((20 : Int) : ℚ), some (((20 : Int) - 5 : Int) : ℚ)]
    ∧ some (((20 : Int) : Int) : ℚ) ≠ some (((20 : Int) - 5 : Int) : ℚ) :=
  (generic_fallback_two_prices "books" 20 (fun _ => [])
    (by decide) (by decide) (by decide) (by decide)).2 (by decide)

/-- Helper: a digit character is none of the stripped or structural
characters. -/
theorem isDigit_ne_special (c : Char) (hd : c.isDigit = true) :
    c ≠ '$' ∧ c ≠ ',' ∧ c ≠ '-' ∧ c ≠ '+' ∧ c ≠ '.' := by
  refine ⟨?_, ?_, ?_, ?_, ?_⟩ <;> rintro rfl <;> exact absurd hd (by decide)

/-- Helper: `takeWhile`/`dropWhile` split a digit block followed by a
decimal point. -/
theorem takeWhile_digit_block (l t : List Char)
    (hl : ∀ c ∈ l, c.isDigit = true) :
    (l ++ '.' :: t).takeWhile Char.isDigit = l
    ∧ (l ++ '.' :: t).dropWhile Char.isDigit = '.' :: t := by
  induction l with
  | nil =>
      have hdot : ('.').isDigit = false := by decide
      constructor <;> simp [List.takeWhile, List.dropWhile, hdot]
  | cons c cs ih =>
      have hc := hl c (by simp)
      have ihh := ih (fun x hx => hl x (by simp [hx]))
      constructor <;>
        simp [List.takeWhile, List.dropWhile, hc, ihh.1, ihh.2]

/-- Helper: `takeWhile`/`dropWhile` on an all-digit list. -/
theorem takeWhile_all_digits (l : List Char)
    (hl : ∀ c ∈ l, c.isDigit = true) :
    l.takeWhile Char.isDigit = l ∧ l.dropWhile Char.isDigit = [] := by
  induction l with
  | nil => constructor <;> rfl
  | cons c cs ih =>
      have hc := hl c (by simp)
      have ihh := ih (fun x hx => hl x (by simp [hx]))
      constructor <;> simp [List.takeWhile, List.dropWhile, hc, ihh.1, ihh.2]

/-- Helper: the money-character filter keeps a string free of `$` and
`,`. -/
theorem strip_money_chars_keep (l : List Char)
    (hl : ∀ c ∈ l, c ≠ '$' ∧ c ≠ ',') :
    strip_money_chars ⟨'$' :: l⟩ = ⟨l⟩ := by
  show String.mk (List.filter _ ('$' :: l)) = String.mk l
  rw [List.filter_cons]
  simp only [decide_not]
  have hd : (!decide ('$' = '$' ∨ '$' = ',')) = false := by decide
  rw [if_neg (by simp)]
  congr 1
  rw [List.filter_eq_self]
  intro a ha
  simp [hl a ha]

/-- Counterexample to C5 as stated: the normalization strips only `$` and
`,`, so a price written with a different currency symbol does not convert
— `float("€25.00")` raises instead of yielding 25. -/
theorem normalize_price_euro_fails :
    ¬ (normalize_price "€25.00" = some 25) := by
  have h : normalize_price "€25.00" = none := rfl
  simp [h]

/-- C5 (amended): a string price consisting of a dollar sign followed by a
decimal numeral normalizes to exactly the value of that numeral — both forms
with and without a fractional part — and on the success path of
`get_gift_suggestions` such a parsed suggestion comes back with the
numeric price. -/
theorem normalize_price_dollar_numeral (ip fp : List Char) (hne : ip ≠ [])
    (hip : ∀ c ∈ ip, c.isDigit = true) (hfp : ∀ c ∈ fp, c.isDigit = true) :
    normalize_price ⟨'$' :: (ip ++ '.' :: fp)⟩
        = some ((digitsToNat ip : ℚ)
            + (digitsToNat fp : ℚ) / (10 : ℚ) ^ fp.length)
    ∧ normalize_price ⟨'$' :: ip⟩ = some (digitsToNat ip : ℚ)
    ∧ ∀ (nm ds rs kw : String) (budget : Int) (imagesFor : Nat → List String),
        get_gift_suggestions
            (.ok [⟨nm, ds, some (.str ⟨'$' :: (ip ++ '.' :: fp)⟩), rs⟩])
            imagesFor kw budget
          = [⟨nm, ds,
              some ((digitsToNat ip : ℚ)
                + (digitsToNat fp : ℚ) / (10 : ℚ) ^ fp.length),
              rs, (imagesFor 1).get? 0⟩] := by
  obtain ⟨c, cs, rfl⟩ := List.exists_cons_of_ne_nil hne
  have hc := hip c (by simp)
  obtain ⟨-, -, hcm, hcp, -⟩ := isDigit_ne_special c hc
  have hkeep1 : ∀ x ∈ c :: cs ++ '.' :: fp, x ≠ '$' ∧ x ≠ ',' := by
    intro x hx
    rcases List.mem_cons.mp hx with rfl | hx0
    · obtain ⟨h1, h2, -⟩ := isDigit_ne_special x hc
      exact ⟨h1, h2⟩
    rcases List.mem_append.mp hx0 with hx' | hx'
    · obtain ⟨h1, h2, -⟩ := isDigit_ne_special x (hip x (by simp [hx']))
      exact ⟨h1, h2⟩
    · rcases List.mem_cons.mp hx' with rfl | hx''
      · exact ⟨by decide, by decide⟩
      · obtain ⟨h1, h2, -⟩ := isDigit_ne_special x (hfp x hx'')
        exact ⟨h1, h2⟩
  have hkeep2 : ∀ x ∈ c :: cs, x ≠ '$' ∧ x ≠ ',' := by
    intro x hx
    obtain ⟨h1, h2, -⟩ := isDigit_ne_special x (hip x hx)
    exact ⟨h1, h2⟩
  have hsplit := takeWhile_digit_block (c :: cs) fp hip
  have hall := takeWhile_all_digits (c :: cs) hip
  have h1 : normalize_price ⟨'$' :: (c :: cs ++ '.' :: fp)⟩
      = some ((digitsToNat (c :: cs) : ℚ)
          + (digitsToNat fp : ℚ) / (10 : ℚ) ^ fp.length) := by
    rw [normalize_price, strip_money_chars_keep _ hkeep1, parseFloat]
    simp only [List.head?, List.cons_append]
    rw [if_neg (by simp [hcm, hcp])]
    have hng : (decide ((some c : Option Char) = some '-') : Bool) = false := by
      simp [hcm]
    rw [List.cons_append] at hsplit
    simp only [hsplit.1, hsplit.2, hng]
    rw [if_pos ⟨List.all_eq_true.mpr (fun x hx => hfp x hx), Or.inl (by simp)⟩]
    simp
  have h2 : normalize_price ⟨'$' :: (c :: cs)⟩
      = some (digitsToNat (c :: cs) : ℚ) := by
    rw [normalize_price, strip_money_chars_keep _ hkeep2, parseFloat]
    simp only [List.head?]
    rw [if_neg (by simp [hcm, hcp])]
    have hng : (decide ((some c : Option Char) = some '-') : Bool) = false := by
      simp [hcm]
    simp only [hall.1, hall.2, hng]
    rw [if_neg (by simp)]
    simp
  refine ⟨h1, h2, fun nm ds rs kw budget imagesFor => ?_⟩
  show (match normalizeAll (imagesFor 1) 0
      [⟨nm, ds, some (.str ⟨'$' :: (c :: cs ++ '.' :: fp)⟩), rs⟩] with
    | some suggs => suggs
    | none => fallback_result (imagesFor 5) kw budget) = _
  rw [normalizeAll, normalizeRaw]
  simp only [h1, Option.map_some]
  rfl

/-- Witness for the amended C5: the string "$25.00" from the spec example
normalizes to 25. -/
theorem normalize_price_dollar_numeral_witness :
    normalize_price "$25.00" = some 25 := by
  have h := (normalize_price_dollar_numeral ['2', '5'] ['0', '0']
    (by decide) (by decide) (by decide)).1
  have e1 : digitsToNat ['2', '5'] = 25 := by decide
  have e2 : digitsToNat ['0', '0'] = 0 := by decide
  calc normalize_price "$25.00"
      = some ((digitsToNat ['2', '5'] : ℚ)
          + (digitsToNat ['0', '0'] : ℚ)
            / (10 : ℚ) ^ (['0', '0'] : List Char).length) := h
    _ = some 25 := by rw [e1, e2]; norm_num

end App
